import Mathlib

/-!
Shallow embedding of the SecureCart session and authentication subsystem
(`src/backend/api/src/services/sessions`, `services/auth.rs`,
`services/registration/mod.rs`, `constants/sessions.rs`).

The Redis session store is modelled as an explicit state value holding the
key-value hashes and per-key TTLs; every store operation from
`services/sessions/store.rs` becomes a pure state-passing function.  The
`getrandom`-backed token generator is modelled by passing the generated
values (bytes, or already-encoded token strings) as explicit arguments in
the order the source draws them.  Rust `expect` panics are modelled with
the `PanicOr` result type carrying the panic message; fallible operations
return `Except`.
-/

/-- Timeout for authenticated sessions in seconds (`constants/sessions.rs`). -/
def SESSION_TIMEOUT : Nat := 7 * 24 * 60 * 60

/-- Timeout for pre-authentication sessions in seconds. -/
def PREAUTH_SESSION_TIMEOUT : Nat := 5 * 60

/-- Timeout for registration sessions in seconds. -/
def REGISTRATION_SESSION_TIMEOUT : Nat := 10 * 60

/-- Timeout for administrative sessions in seconds. -/
def ADMIN_SESSION_TIMEOUT : Nat := 2 * 60 * 60

/-- Max authentication attempts before timeout. -/
def AUTH_TIMEOUT_ATTEMPTS : Nat := 5

/-- The timeout period within which bruteforce auth attempts will be counted. -/
def AUTH_TIMEOUT_PERIOD : Nat := 10

/-- The period for which a client is timed out after being flagged for bruteforce. -/
def AUTH_PENALTY_PERIOD : Nat := 60

/-- Result of a computation that may hit a Rust `expect`/panic; `panicked`
carries the panic message string from the source. -/
inductive PanicOr (α : Type) : Type where
  | panicked (msg : String)
  | ok (a : α)
deriving DecidableEq, Repr

/-- One hex digit character, lowercase, as produced by Rust `{:x}` formatting. -/
def hexDigitChar (n : Nat) : Char :=
  if n < 10 then Char.ofNat (48 + n) else Char.ofNat (87 + n)

/-- Rust `write!(acc, "{x:x}")` for a byte `x`: minimal-width lowercase hex,
one digit for bytes below 16, two digits otherwise. -/
def byteHex (b : Nat) : String :=
  if b < 16 then String.mk [hexDigitChar b]
  else String.mk [hexDigitChar (b / 16), hexDigitChar (b % 16)]

/-- `generate_token` from `services/sessions/mod.rs`: fold the 24 CSPRNG bytes
(passed here explicitly) into a string via `{x:x}` formatting. -/
def generate_token (bytes : List Nat) : String :=
  bytes.foldl (fun acc x => acc ++ byteHex x) ""

/-- Find the value bound to `key` in an association list (Redis model helper). -/
def assocFind {α : Type} : List (String × α) → String → Option α
  | [], _ => none
  | (k, v) :: rest, key => if k = key then some v else assocFind rest key

/-- Bind `key` to `v`, replacing an existing binding or appending a new one. -/
def assocSet {α : Type} : List (String × α) → String → α → List (String × α)
  | [], key, v => [(key, v)]
  | (k, w) :: rest, key, v =>
    if k = key then (k, v) :: rest else (k, w) :: assocSet rest key v

/-- Remove any binding of `key`. -/
def assocRemove {α : Type} : List (String × α) → String → List (String × α)
  | [], _ => []
  | (k, w) :: rest, key =>
    if k = key then assocRemove rest key else (k, w) :: assocRemove rest key

/-- A Redis hash: field name to string value. -/
abbrev RedisHash := List (String × String)

/-- The modelled Redis database: top-level keys to hashes, plus per-key TTLs
in seconds (set by `EXPIRE`). -/
structure RedisState where
  hashes : List (String × RedisHash)
  ttls : List (String × Nat)
deriving DecidableEq, Repr

/-- The empty store. -/
def RedisState.empty : RedisState := ⟨[], []⟩

/-- `HGET key field`. -/
def RedisState.hget (st : RedisState) (key field : String) : Option String :=
  (assocFind st.hashes key).bind fun h => assocFind h field

/-- `EXISTS key`. -/
def RedisState.existsKey (st : RedisState) (key : String) : Bool :=
  (assocFind st.hashes key).isSome

/-- `HSET key field value`. -/
def RedisState.hset (st : RedisState) (key field value : String) : RedisState :=
  { st with
    hashes :=
      assocSet st.hashes key
        (assocSet ((assocFind st.hashes key).getD []) field value) }

/-- `HSETNX key field value`: set the field only when it is absent. -/
def RedisState.hsetNx (st : RedisState) (key field value : String) : RedisState :=
  if (st.hget key field).isSome then st else st.hset key field value

/-- `HSET key f1 v1 f2 v2 ...` (redis-rs `hset_multiple`). -/
def RedisState.hsetMultiple (st : RedisState) (key : String)
    (pairs : List (String × String)) : RedisState :=
  pairs.foldl (fun s p => s.hset key p.1 p.2) st

/-- `DEL key`: removes the key, its hash and its TTL. -/
def RedisState.del (st : RedisState) (key : String) : RedisState :=
  ⟨assocRemove st.hashes key, assocRemove st.ttls key⟩

/-- `EXPIRE key seconds`: records a TTL for an existing key. -/
def RedisState.expire (st : RedisState) (key : String) (seconds : Nat) : RedisState :=
  if (assocFind st.hashes key).isSome then
    { st with ttls := assocSet st.ttls key seconds }
  else st

/-- redis-rs encoding of a `bool` argument. -/
def boolToRedis (b : Bool) : String := if b then "1" else "0"

/-- redis-rs decoding of a stored value as `bool`; `none` models the
`RedisError` raised on an unparseable value. -/
def boolFromRedis : String → Option Bool
  | "1" => some true
  | "0" => some false
  | _ => none

/-- `SessionType` from `services/sessions/store.rs`. -/
inductive SessionType : Type where
  | PreAuthentication
  | Authenticated
  | Registration
deriving DecidableEq, Repr

/-- `SessionType::to_parent_key_name`. -/
def SessionType.to_parent_key_name : SessionType → String
  | .PreAuthentication => "sessions:preauthentication"
  | .Authenticated => "sessions:authenticated"
  | .Registration => "sessions:registration"

/-- The full Redis key `"{parent}:{token}"` used throughout `store.rs`. -/
def sessionKey (ty : SessionType) (token : String) : String :=
  ty.to_parent_key_name ++ ":" ++ token

/-- `PreAuthenticationSessionData` (the `Uuid` is modelled as a string). -/
structure PreAuthenticationSessionData where
  user_id : String
deriving DecidableEq, Repr

/-- `AuthenticatedSessionData`. -/
structure AuthenticatedSessionData where
  user_id : String
  admin : Bool
deriving DecidableEq, Repr

/-- `AppUserInsert` from `db/models/appuser.rs` (`EmailAddress` modelled as the
underlying string). -/
structure AppUserInsert where
  email : String
  forename : String
  surname : String
  address : String
deriving DecidableEq, Repr

/-- `RegistrationSessionData`. -/
structure RegistrationSessionData where
  user_data : AppUserInsert
deriving DecidableEq, Repr

/-- `SessionInfo` from `store.rs`. -/
inductive SessionInfo : Type where
  | PreAuthentication (csrf : String) (data : PreAuthenticationSessionData)
  | Authenticated (csrf : String) (data : AuthenticatedSessionData)
  | Registration (csrf : String) (data : RegistrationSessionData)
deriving DecidableEq, Repr

/-- `SessionInfo::csrf_token`. -/
def SessionInfo.csrf_token : SessionInfo → String
  | .PreAuthentication csrf _ => csrf
  | .Authenticated csrf _ => csrf
  | .Registration csrf _ => csrf

/-- `SessionInfo::as_pre_auth`. -/
def SessionInfo.as_pre_auth : SessionInfo → Option PreAuthenticationSessionData
  | .PreAuthentication _ data => some data
  | .Registration _ _ => none
  | .Authenticated _ _ => none

/-- `SessionInfo::as_auth`. -/
def SessionInfo.as_auth : SessionInfo → Option AuthenticatedSessionData
  | .Authenticated _ data => some data
  | .PreAuthentication _ _ => none
  | .Registration _ _ => none

/-- `SessionInfo::as_registration`. -/
def SessionInfo.as_registration : SessionInfo → Option RegistrationSessionData
  | .Registration _ data => some data
  | .PreAuthentication _ _ => none
  | .Authenticated _ _ => none

/-- `impl From<SessionInfo> for SessionType`. -/
def SessionInfo.toSessionType : SessionInfo → SessionType
  | .PreAuthentication _ _ => .PreAuthentication
  | .Authenticated _ _ => .Authenticated
  | .Registration _ _ => .Registration

/-- `SessionStorageError` (`store.rs::errors`): the wrapped `RedisError` is
modelled by the kind of decode failure together with the offending field. -/
inductive SessionStorageError : Type where
  | typeError (field : String)
deriving DecidableEq, Repr

/-- `SessionCreationError` (`store.rs::errors`). -/
inductive SessionCreationError : Type where
  | Duplicate
  | StorageError (e : SessionStorageError)
deriving DecidableEq, Repr

/-- `Connection::store_registration_data`: `HSETNX` of the discriminating
`email` field, re-read and compare, then `hset_multiple` of the rest.
Returns the result together with the store state at that point. -/
def Connection.store_registration_data (st : RedisState) (key csrf : String)
    (data : RegistrationSessionData) : Except SessionCreationError Unit × RedisState :=
  let st1 := st.hsetNx key "email" data.user_data.email
  match st1.hget key "email" with
  | none => (.error (.StorageError (.typeError "email")), st1)
  | some set_email =>
    if set_email ≠ data.user_data.email then (.error .Duplicate, st1)
    else
      (.ok (),
        st1.hsetMultiple key
          [("forename", data.user_data.forename), ("surname", data.user_data.surname),
            ("address", data.user_data.address), ("csrf", csrf)])

/-- `Connection::store_authenticated_data`. -/
def Connection.store_authenticated_data (st : RedisState) (key csrf : String)
    (data : AuthenticatedSessionData) : Except SessionCreationError Unit × RedisState :=
  let st1 := st.hsetNx key "user_id" data.user_id
  match st1.hget key "user_id" with
  | none => (.error (.StorageError (.typeError "user_id")), st1)
  | some set_user_id =>
    if set_user_id = data.user_id then
      (.ok (), (st1.hset key "admin" (boolToRedis data.admin)).hset key "csrf" csrf)
    else (.error .Duplicate, st1)

/-- `Connection::store_preauthentication_data`. -/
def Connection.store_preauthentication_data (st : RedisState) (key csrf : String)
    (data : PreAuthenticationSessionData) : Except SessionCreationError Unit × RedisState :=
  let st1 := st.hsetNx key "user_id" data.user_id
  match st1.hget key "user_id" with
  | none => (.error (.StorageError (.typeError "user_id")), st1)
  | some set_user_id =>
    if set_user_id = data.user_id then (.ok (), st1.hset key "csrf" csrf)
    else (.error .Duplicate, st1)

/-- `Connection::get_registration_session_data`: `email` is read as an
`Option`, but `forename`, `surname`, `address` and `csrf` are read as plain
`String`s, so their absence surfaces as a decode error, not as `None`. -/
def Connection.get_registration_session_data (st : RedisState) (key : String) :
    Except SessionStorageError (Option SessionInfo) :=
  match st.hget key "email" with
  | none => .ok none
  | some email =>
    match st.hget key "forename" with
    | none => .error (.typeError "forename")
    | some forename =>
      match st.hget key "surname" with
      | none => .error (.typeError "surname")
      | some surname =>
        match st.hget key "address" with
        | none => .error (.typeError "address")
        | some address =>
          match st.hget key "csrf" with
          | none => .error (.typeError "csrf")
          | some csrf =>
            .ok (some (.Registration csrf ⟨⟨email, forename, surname, address⟩⟩))

/-- `Connection::get_authenticated_session_info`: all three fields are read as
`Option`s and combined; the record is returned only when all are present. -/
def Connection.get_authenticated_session_info (st : RedisState) (key : String) :
    Except SessionStorageError (Option SessionInfo) :=
  let maybe_user_id := st.hget key "user_id"
  match st.hget key "admin" with
  | none =>
    .ok (maybe_user_id.bind fun _ => none)
  | some adminRaw =>
    match boolFromRedis adminRaw with
    | none => .error (.typeError "admin")
    | some admin =>
      .ok (maybe_user_id.bind fun user_id =>
        (st.hget key "csrf").map fun csrf => .Authenticated csrf ⟨user_id, admin⟩)

/-- `Connection::get_preauthenticated_session_info`. -/
def Connection.get_preauthenticated_session_info (st : RedisState) (key : String) :
    Except SessionStorageError (Option SessionInfo) :=
  .ok ((st.hget key "user_id").bind fun user_id =>
    (st.hget key "csrf").map fun csrf => .PreAuthentication csrf ⟨user_id⟩)

/-- `Connection::create`: conditional create under the namespaced key —
`EXISTS` check first, then dispatch on the payload shape. -/
def Connection.create (st : RedisState) (token : String) (session_info : SessionInfo) :
    Except SessionCreationError Unit × RedisState :=
  let key := sessionKey session_info.toSessionType token
  if st.existsKey key then (.error .Duplicate, st)
  else
    match session_info with
    | .Registration csrf data => Connection.store_registration_data st key csrf data
    | .PreAuthentication csrf data => Connection.store_preauthentication_data st key csrf data
    | .Authenticated csrf data => Connection.store_authenticated_data st key csrf data

/-- `Connection::delete`: unconditional `DEL` of the namespaced key. -/
def Connection.delete (st : RedisState) (token : String) (ty : SessionType) : RedisState :=
  st.del (sessionKey ty token)

/-- `Connection::set_expiry`. -/
def Connection.set_expiry (st : RedisState) (token : String) (seconds : Nat)
    (ty : SessionType) : RedisState :=
  st.expire (sessionKey ty token) seconds

/-- `Connection::get_info`: dispatch to the per-kind reader on the namespaced key. -/
def Connection.get_info (st : RedisState) (token : String) (ty : SessionType) :
    Except SessionStorageError (Option SessionInfo) :=
  let key := sessionKey ty token
  match ty with
  | .PreAuthentication => Connection.get_preauthenticated_session_info st key
  | .Authenticated => Connection.get_authenticated_session_info st key
  | .Registration => Connection.get_registration_session_data st key

/-- `BaseSession` from `services/sessions/mod.rs`. -/
structure BaseSession where
  token : String
  session_info : SessionInfo
deriving DecidableEq, Repr

/-- `BaseSession::create`: the infinite retry loop over freshly generated
candidate tokens, here driven by the explicit list of generator outputs.
`none` means the loop did not fire a non-`Duplicate` outcome within the
supplied candidates. -/
def BaseSession.createLoop : List String → SessionInfo → RedisState →
    Option (Except SessionStorageError (BaseSession × RedisState))
  | [], _, _ => none
  | candidate :: rest, session_info, st =>
    match Connection.create st candidate session_info with
    | (.ok _, st1) => some (.ok (⟨candidate, session_info⟩, st1))
    | (.error (.StorageError e), _) => some (.error e)
    | (.error .Duplicate, st1) => BaseSession.createLoop rest session_info st1

/-- `BaseSession::get`. -/
def BaseSession.get (token : String) (ty : SessionType) (st : RedisState) :
    Except SessionStorageError (Option BaseSession) :=
  (Connection.get_info st token ty).map (Option.map fun session_info =>
    ⟨token, session_info⟩)

/-- `CustomerSession`. -/
structure CustomerSession where
  session : BaseSession
deriving DecidableEq, Repr

/-- `PreAuthenticationSession`. -/
structure PreAuthenticationSession where
  session : BaseSession
deriving DecidableEq, Repr

/-- `RegistrationSession`. -/
structure RegistrationSession where
  session : BaseSession
deriving DecidableEq, Repr

/-- `AdministratorSession`. -/
structure AdministratorSession where
  session : BaseSession
deriving DecidableEq, Repr

/-- `GenericAuthenticatedSession`. -/
inductive GenericAuthenticatedSession : Type where
  | Customer (s : CustomerSession)
  | Administrator (s : AdministratorSession)
deriving DecidableEq, Repr

/-- `GenericAuthenticatedSession::get`: fetch under the `Authenticated`
namespace and branch on the `admin` flag; the `expect` on `as_auth` is a
panic. -/
def GenericAuthenticatedSession.get (token : String) (st : RedisState) :
    PanicOr (Except SessionStorageError (Option GenericAuthenticatedSession)) :=
  match BaseSession.get token .Authenticated st with
  | .error e => .ok (.error e)
  | .ok none => .ok (.ok none)
  | .ok (some session) =>
    match session.session_info.as_auth with
    | none =>
      .panicked "Requested authenticated session, got something else. Bug/Redis is corrupted."
    | some data =>
      if data.admin then .ok (.ok (some (.Administrator ⟨session⟩)))
      else .ok (.ok (some (.Customer ⟨session⟩)))

/-- `AdministratorSession::get`: succeeds only when the stored record's
`admin` flag is set. -/
def AdministratorSession.get (token : String) (st : RedisState) :
    PanicOr (Except SessionStorageError (Option AdministratorSession)) :=
  match BaseSession.get token .Authenticated st with
  | .error e => .ok (.error e)
  | .ok none => .ok (.ok none)
  | .ok (some session) =>
    match session.session_info.as_auth with
    | none =>
      .panicked "Got non-authenticated session back from get with SessionType::Authenticated. Major bug in session store."
    | some data =>
      if data.admin then .ok (.ok (some ⟨session⟩)) else .ok (.ok none)

/-- `CustomerSession::get`: succeeds only when the stored record's `admin`
flag is clear. -/
def CustomerSession.get (token : String) (st : RedisState) :
    PanicOr (Except SessionStorageError (Option CustomerSession)) :=
  match BaseSession.get token .Authenticated st with
  | .error e => .ok (.error e)
  | .ok none => .ok (.ok none)
  | .ok (some sess) =>
    match sess.session_info.as_auth with
    | none =>
      .panicked "Malformed authenticated session data returned from store. Unrecoverable."
    | some data =>
      if data.admin then .ok (.ok none) else .ok (.ok (some ⟨sess⟩))

/-- `PreAuthenticationSession::get`. -/
def PreAuthenticationSession.get (token : String) (st : RedisState) :
    Except SessionStorageError (Option PreAuthenticationSession) :=
  (BaseSession.get token .PreAuthentication st).map (Option.map fun session =>
    ⟨session⟩)

/-- `RegistrationSession::get`. -/
def RegistrationSession.get (token : String) (st : RedisState) :
    Except SessionStorageError (Option RegistrationSession) :=
  (BaseSession.get token .Registration st).map (Option.map fun session =>
    ⟨session⟩)

/-- `PreAuthenticationSession::create`: generate a csrf token, create the
base session, then apply the pre-authentication TTL. -/
def PreAuthenticationSession.create (user_id : String) (csrf : String)
    (candidates : List String) (st : RedisState) :
    Option (Except SessionStorageError (PreAuthenticationSession × RedisState)) :=
  match BaseSession.createLoop candidates (.PreAuthentication csrf ⟨user_id⟩) st with
  | none => none
  | some (.error e) => some (.error e)
  | some (.ok (session, st1)) =>
    some (.ok (⟨session⟩,
      Connection.set_expiry st1 session.token PREAUTH_SESSION_TIMEOUT .PreAuthentication))

/-- `PreAuthenticationSession::promote`: delete the pre-authentication
record, then create a brand-new `Authenticated` record (`admin = false`)
with a fresh csrf token and the customer TTL. -/
def PreAuthenticationSession.promote (s : PreAuthenticationSession) (csrf : String)
    (candidates : List String) (st : RedisState) :
    PanicOr (Option (Except SessionStorageError (CustomerSession × RedisState))) :=
  let st1 := Connection.delete st s.session.token .PreAuthentication
  match s.session.session_info.as_pre_auth with
  | none =>
    .panicked "Attempted to promote a non-preauthentication session to an authenticated one"
  | some data =>
    match BaseSession.createLoop candidates (.Authenticated csrf ⟨data.user_id, false⟩) st1 with
    | none => .ok none
    | some (.error e) => .ok (some (.error e))
    | some (.ok (session, st2)) =>
      .ok (some (.ok (⟨session⟩,
        Connection.set_expiry st2 session.token SESSION_TIMEOUT .Authenticated)))

/-- `PreAuthenticationSession::promote_to_admin`: as `promote` but with
`admin = true` and the administrator TTL. -/
def PreAuthenticationSession.promote_to_admin (s : PreAuthenticationSession)
    (csrf : String) (candidates : List String) (st : RedisState) :
    PanicOr (Option (Except SessionStorageError (AdministratorSession × RedisState))) :=
  let st1 := Connection.delete st s.session.token .PreAuthentication
  match s.session.session_info.as_pre_auth with
  | none =>
    .panicked "Attempted to promote non-preauthentication registration session to an administrative session."
  | some data =>
    match BaseSession.createLoop candidates (.Authenticated csrf ⟨data.user_id, true⟩) st1 with
    | none => .ok none
    | some (.error e) => .ok (some (.error e))
    | some (.ok (session, st2)) =>
      .ok (some (.ok (⟨session⟩,
        Connection.set_expiry st2 session.token ADMIN_SESSION_TIMEOUT .Authenticated)))

/-- `PreAuthenticationSession::user_id` (the `expect` is a panic). -/
def PreAuthenticationSession.user_id (s : PreAuthenticationSession) :
    PanicOr String :=
  match s.session.session_info.as_pre_auth with
  | none => .panicked "Attempted to convert a registration session to a preauth session."
  | some data => .ok data.user_id

/-- `RegistrationSession::create`. -/
def RegistrationSession.create (user_data : AppUserInsert) (csrf : String)
    (candidates : List String) (st : RedisState) :
    Option (Except SessionStorageError (RegistrationSession × RedisState)) :=
  match BaseSession.createLoop candidates (.Registration csrf ⟨user_data⟩) st with
  | none => none
  | some (.error e) => some (.error e)
  | some (.ok (session, st1)) =>
    some (.ok (⟨session⟩,
      Connection.set_expiry st1 session.token REGISTRATION_SESSION_TIMEOUT .Registration))

/-- `RegistrationSession::user_data` (the `expect` is a panic). -/
def RegistrationSession.user_data (s : RegistrationSession) : PanicOr AppUserInsert :=
  match s.session.session_info.as_registration with
  | none =>
    .panicked "Attempted to convert an authentication session to a registration session."
  | some data => .ok data.user_data

/-- `SessionTrait::delete` for `RegistrationSession`. -/
def RegistrationSession.deleteSession (s : RegistrationSession) (st : RedisState) :
    RedisState :=
  Connection.delete st s.session.token .Registration

/-- The per-client bruteforce counter key's state: the stored counter value
(`none` when the key is absent or expired) and its current TTL. -/
structure BruteforceState where
  count : Option Nat
  ttl : Option Nat
deriving DecidableEq, Repr

/-- A fresh client identifier: no counter stored. -/
def BruteforceState.fresh : BruteforceState := ⟨none, none⟩

/-- `Connection::bruteforce_timeout`: `INCR` the per-client counter, then set
the TTL to the short window and allow (`false`) below the attempt threshold,
or set the penalty TTL and deny (`true`) otherwise. -/
def Connection.bruteforce_timeout (st : BruteforceState) : Bool × BruteforceState :=
  let attempts := st.count.getD 0 + 1
  if attempts < AUTH_TIMEOUT_ATTEMPTS then
    (false, ⟨some attempts, some AUTH_TIMEOUT_PERIOD⟩)
  else
    (true, ⟨some attempts, some AUTH_PENALTY_PERIOD⟩)

/-- The counter state after `n` consecutive attempts from a fresh client,
with no expiry in between. -/
def afterAttempts : Nat → BruteforceState
  | 0 => BruteforceState.fresh
  | n + 1 => (Connection.bruteforce_timeout (afterAttempts n)).2

/-- `AppUserRole` from `db/models/appuser.rs`. -/
inductive AppUserRole : Type where
  | Customer
  | Administrator
deriving DecidableEq, Repr

/-- `AppUser` (the `Uuid` primary key is modelled as a string). -/
structure AppUser where
  id : String
  email : String
  forename : String
  surname : String
  address : String
  role : AppUserRole
deriving DecidableEq, Repr

/-- The relational data store as the claims need it: the `appuser` rows, the
`password` rows (user id to stored hash) and the `totp` rows.  A TOTP secret
is abstracted as the set of codes it currently validates, standing in for the
time-dependent `totp_rs` check in `db/models/totp.rs`. -/
structure Db where
  users : List AppUser
  passwords : List (String × String)
  totps : List (String × List String)
deriving DecidableEq, Repr

/-- `AppUser::select_one`: select a user row by id. -/
def AppUser.select_one (db : Db) (id : String) : Option AppUser :=
  db.users.find? fun u => u.id = id

/-- Lookup of a user row by exact email (`AppUser::select_by_email`). -/
def AppUser.select_by_email (db : Db) (email : String) : Option AppUser :=
  db.users.find? fun u => u.email = email

/-- `AppUserInsert::store`: insert a new `appuser` row; the database-generated
primary key is passed explicitly as `new_id`. -/
def AppUserInsert.store (d : AppUserInsert) (role : AppUserRole) (new_id : String)
    (db : Db) : AppUser × Db :=
  let user : AppUser := ⟨new_id, d.email, d.forename, d.surname, d.address, role⟩
  (user, { db with users := db.users ++ [user] })

/-- `AppUser::delete`: delete the row with this user's id. -/
def AppUser.delete (u : AppUser) (db : Db) : Db :=
  { db with users := db.users.filter fun v => v.id ≠ u.id }

/-- `Totp::select`: the stored TOTP secret for a user, if any (abstracted as
its set of currently-valid codes). -/
def Totp.select (db : Db) (user_id : String) : Option (List String) :=
  assocFind db.totps user_id

/-- An error from the relational store (`DatabaseError`); the single
constructor stands for the injected backend failure a claim quantifies over. -/
inductive DatabaseError : Type where
  | backend
deriving DecidableEq, Repr

/-- `validate_2fa` from `services/auth.rs`:
`totp_secret.is_some_and(|secret| secret.validate(&code))`, with
`Totp::validate` abstracted to membership in the secret's valid-code set. -/
def validate_2fa (db : Db) (user_id : String) (code : String) : Bool :=
  match Totp.select db user_id with
  | none => false
  | some codes => codes.contains code

/-- `AuthenticationOutcome2fa` from `services/auth.rs`. -/
inductive AuthenticationOutcome2fa : Type where
  | Success (s : CustomerSession)
  | SuccessAdministrative (s : AdministratorSession)
  | Failure
deriving DecidableEq, Repr

/-- `authenticate_2fa` from `services/auth.rs`: look the user up (the
`expect` on the lookup is a panic), validate the supplied code, and on
success promote the pre-authentication session per the user's role; on
failure return `Failure` without touching the session store.  Returns the
outcome paired with the resulting session store state. -/
def authenticate_2fa (session : PreAuthenticationSession) (code : String)
    (db : Db) (csrf : String) (candidates : List String) (st : RedisState) :
    PanicOr (Option (Except SessionStorageError (AuthenticationOutcome2fa × RedisState))) :=
  match session.session.session_info.as_pre_auth with
  | none => .panicked "Attempted to convert a registration session to a preauth session."
  | some data =>
    match AppUser.select_one db data.user_id with
    | none => .panicked "User was deleting while authenticating session. Bailing."
    | some user =>
      if validate_2fa db data.user_id code then
        match user.role with
        | .Customer =>
          match session.promote csrf candidates st with
          | .panicked msg => .panicked msg
          | .ok none => .ok none
          | .ok (some (.error e)) => .ok (some (.error e))
          | .ok (some (.ok (cust, st1))) => .ok (some (.ok (.Success cust, st1)))
        | .Administrator =>
          match session.promote_to_admin csrf candidates st with
          | .panicked msg => .panicked msg
          | .ok none => .ok none
          | .ok (some (.error e)) => .ok (some (.error e))
          | .ok (some (.ok (adm, st1))) =>
            .ok (some (.ok (.SuccessAdministrative adm, st1)))
      else .ok (some (.ok (.Failure, st)))

/-- `signup_add_credential_and_commit` from `services/registration/mod.rs`:
store the pending user row, then attach the password credential; if that
fails (`pwStoreFails` injects the backend failure of
`PasswordInsert::store`), delete the just-created user row and surface the
error; only on full success delete the registration session record.
Returns the outcome together with the final relational and session store
states. -/
def signup_add_credential_and_commit (registration_session : RegistrationSession)
    (new_id : String) (pwStoreFails : Bool) (db : Db) (st : RedisState) :
    PanicOr (Except DatabaseError Unit × Db × RedisState) :=
  match registration_session.user_data with
  | .panicked msg => .panicked msg
  | .ok user_data =>
    let (stored_user, db1) := user_data.store .Customer new_id db
    if pwStoreFails then
      .ok (.error .backend, stored_user.delete db1, st)
    else
      let db2 := { db1 with passwords := db1.passwords ++ [(stored_user.id, "hash")] }
      .ok (.ok (), db2, registration_session.deleteSession st)

theorem assocFind_set_self {α : Type} (l : List (String × α)) (k : String) (v : α) :
    assocFind (assocSet l k v) k = some v := by
  induction l with
  | nil => simp [assocFind, assocSet]
  | cons p rest ih =>
    obtain ⟨k0, w⟩ := p
    by_cases h : k0 = k
    · simp [assocFind, assocSet, h]
    · simp [assocFind, assocSet, h, ih]

theorem assocFind_set_ne {α : Type} (l : List (String × α)) (k k' : String) (v : α)
    (h : k' ≠ k) : assocFind (assocSet l k v) k' = assocFind l k' := by
  induction l with
  | nil => simp [assocFind, assocSet, Ne.symm h]
  | cons p rest ih =>
    obtain ⟨k0, w⟩ := p
    by_cases h0 : k0 = k
    · subst h0
      simp [assocFind, assocSet, Ne.symm h]
    · simp only [assocSet, if_neg h0, assocFind]
      by_cases h1 : k0 = k'
      · simp [h1]
      · simp [h1, ih]

theorem assocFind_remove_self {α : Type} (l : List (String × α)) (k : String) :
    assocFind (assocRemove l k) k = none := by
  induction l with
  | nil => simp [assocFind, assocRemove]
  | cons p rest ih =>
    obtain ⟨k0, w⟩ := p
    by_cases h : k0 = k
    · simp [assocRemove, h, ih]
    · simp [assocRemove, assocFind, h, ih]

theorem assocFind_remove_ne {α : Type} (l : List (String × α)) (k k' : String)
    (h : k' ≠ k) : assocFind (assocRemove l k) k' = assocFind l k' := by
  induction l with
  | nil => simp [assocRemove]
  | cons p rest ih =>
    obtain ⟨k0, w⟩ := p
    by_cases h0 : k0 = k
    · subst h0
      simp [assocRemove, assocFind, Ne.symm h, ih]
    · simp only [assocRemove, if_neg h0, assocFind]
      by_cases h1 : k0 = k'
      · simp [h1]
      · simp [h1, ih]

theorem hget_hset_self (st : RedisState) (k f v : String) :
    (st.hset k f v).hget k f = some v := by
  simp [RedisState.hget, RedisState.hset, assocFind_set_self]

theorem hget_hset_ne_field (st : RedisState) (k f f' v : String) (h : f' ≠ f) :
    (st.hset k f v).hget k f' = st.hget k f' := by
  cases hfind : assocFind st.hashes k with
  | none =>
    simp [RedisState.hget, RedisState.hset, hfind, assocFind_set_self,
      assocFind_set_ne _ _ _ _ h, assocFind, Ne.symm h]
  | some hsh =>
    simp [RedisState.hget, RedisState.hset, hfind, assocFind_set_self,
      assocFind_set_ne _ _ _ _ h]

theorem hget_hset_ne_key (st : RedisState) (k k' f f' v : String) (h : k' ≠ k) :
    (st.hset k f v).hget k' f' = st.hget k' f' := by
  simp [RedisState.hget, RedisState.hset, assocFind_set_ne _ _ _ _ h]

theorem hget_del_self (st : RedisState) (k f : String) :
    (st.del k).hget k f = none := by
  simp [RedisState.hget, RedisState.del, assocFind_remove_self]

theorem hget_del_ne (st : RedisState) (k k' f : String) (h : k' ≠ k) :
    (st.del k).hget k' f = st.hget k' f := by
  simp [RedisState.hget, RedisState.del, assocFind_remove_ne _ _ _ h]

theorem hget_expire (st : RedisState) (k k' f : String) (n : Nat) :
    (st.expire k n).hget k' f = st.hget k' f := by
  unfold RedisState.expire
  by_cases h : (assocFind st.hashes k).isSome <;> simp [h, RedisState.hget]

theorem append_ne_of_getElem (l1 l2 r1 r2 : List Char) (i : Nat) (h1 : i < l1.length)
    (h2 : i < l2.length) (hne : l1[i]? ≠ l2[i]?) : l1 ++ r1 ≠ l2 ++ r2 := by
  intro h
  apply hne
  rw [← List.getElem?_append_left h1, ← List.getElem?_append_left h2, h]

theorem data_append_eq (a b : String) : (a ++ b).data = a.data ++ b.data := by
  cases a
  cases b
  rfl

/-- Distinct session kinds always produce distinct storage keys: the three
parent key names diverge at character index 9. -/
theorem sessionKey_ne (ty1 ty2 : SessionType) (t1 t2 : String) (h : ty1 ≠ ty2) :
    sessionKey ty1 t1 ≠ sessionKey ty2 t2 := by
  intro he
  have hd := congrArg String.data he
  cases ty1 <;> cases ty2 <;>
    simp only [sessionKey, SessionType.to_parent_key_name, data_append_eq] at hd <;>
    first
      | exact h rfl
      | exact append_ne_of_getElem _ _ _ _ 9 (by decide) (by decide) (by decide) hd

theorem existsKey_false_of_find_none (st : RedisState) (key : String)
    (h : assocFind st.hashes key = none) : st.existsKey key = false := by
  simp [RedisState.existsKey, h]

theorem hget_none_of_find_none (st : RedisState) (key f : String)
    (h : assocFind st.hashes key = none) : st.hget key f = none := by
  simp [RedisState.hget, h]

/-- The store state after a successful `store_registration_data` write. -/
def regWrittenState (st : RedisState) (key em fo su ad csrf : String) : RedisState :=
  ((((st.hset key "email" em).hset key "forename" fo).hset key "surname" su).hset
    key "address" ad).hset key "csrf" csrf

/-- The store state after a successful `store_preauthentication_data` write. -/
def preauthWrittenState (st : RedisState) (key uid csrf : String) : RedisState :=
  (st.hset key "user_id" uid).hset key "csrf" csrf

/-- The store state after a successful `store_authenticated_data` write. -/
def authWrittenState (st : RedisState) (key uid : String) (admin : Bool)
    (csrf : String) : RedisState :=
  ((st.hset key "user_id" uid).hset key "admin" (boolToRedis admin)).hset key "csrf" csrf

theorem create_eq_of_exists (st : RedisState) (token : String) (info : SessionInfo)
    (h : st.existsKey (sessionKey info.toSessionType token) = true) :
    Connection.create st token info = (.error .Duplicate, st) := by
  cases info <;> simp [Connection.create, SessionInfo.toSessionType] at h ⊢ <;> simp [h]

theorem create_registration_eq (st : RedisState) (token csrf em fo su ad : String)
    (h : assocFind st.hashes (sessionKey .Registration token) = none) :
    Connection.create st token (.Registration csrf ⟨⟨em, fo, su, ad⟩⟩) =
      (.ok (), regWrittenState st (sessionKey .Registration token) em fo su ad csrf) := by
  have hex := existsKey_false_of_find_none st _ h
  have hem := hget_none_of_find_none st (sessionKey .Registration token) "email" h
  simp [Connection.create, SessionInfo.toSessionType, hex,
    Connection.store_registration_data, RedisState.hsetNx, hem, hget_hset_self,
    RedisState.hsetMultiple, regWrittenState]

theorem create_preauth_eq (st : RedisState) (token csrf uid : String)
    (h : assocFind st.hashes (sessionKey .PreAuthentication token) = none) :
    Connection.create st token (.PreAuthentication csrf ⟨uid⟩) =
      (.ok (), preauthWrittenState st (sessionKey .PreAuthentication token) uid csrf) := by
  have hex := existsKey_false_of_find_none st _ h
  have huid := hget_none_of_find_none st (sessionKey .PreAuthentication token) "user_id" h
  simp [Connection.create, SessionInfo.toSessionType, hex,
    Connection.store_preauthentication_data, RedisState.hsetNx, huid, hget_hset_self,
    preauthWrittenState]

theorem create_auth_eq (st : RedisState) (token csrf uid : String) (admin : Bool)
    (h : assocFind st.hashes (sessionKey .Authenticated token) = none) :
    Connection.create st token (.Authenticated csrf ⟨uid, admin⟩) =
      (.ok (), authWrittenState st (sessionKey .Authenticated token) uid admin csrf) := by
  have hex := existsKey_false_of_find_none st _ h
  have huid := hget_none_of_find_none st (sessionKey .Authenticated token) "user_id" h
  simp [Connection.create, SessionInfo.toSessionType, hex,
    Connection.store_authenticated_data, RedisState.hsetNx, huid, hget_hset_self,
    authWrittenState]

theorem regWrittenState_get (st : RedisState) (token em fo su ad csrf : String) :
    Connection.get_info (regWrittenState st (sessionKey .Registration token) em fo su ad csrf)
      token .Registration = .ok (some (.Registration csrf ⟨⟨em, fo, su, ad⟩⟩)) := by
  simp [Connection.get_info, Connection.get_registration_session_data, regWrittenState,
    hget_hset_self, hget_hset_ne_field]

theorem preauthWrittenState_get (st : RedisState) (token uid csrf : String) :
    Connection.get_info (preauthWrittenState st (sessionKey .PreAuthentication token) uid csrf)
      token .PreAuthentication = .ok (some (.PreAuthentication csrf ⟨uid⟩)) := by
  simp [Connection.get_info, Connection.get_preauthenticated_session_info,
    preauthWrittenState, hget_hset_self, hget_hset_ne_field]

theorem authWrittenState_get (st : RedisState) (token uid csrf : String) (admin : Bool) :
    Connection.get_info (authWrittenState st (sessionKey .Authenticated token) uid admin csrf)
      token .Authenticated = .ok (some (.Authenticated csrf ⟨uid, admin⟩)) := by
  cases admin <;>
    simp [Connection.get_info, Connection.get_authenticated_session_info,
      authWrittenState, hget_hset_self, hget_hset_ne_field, boolToRedis, boolFromRedis]

theorem regWrittenState_frame (st : RedisState) (key em fo su ad csrf k f : String)
    (hk : k ≠ key) :
    (regWrittenState st key em fo su ad csrf).hget k f = st.hget k f := by
  simp [regWrittenState, hget_hset_ne_key _ _ _ _ _ _ hk]

theorem preauthWrittenState_frame (st : RedisState) (key uid csrf k f : String)
    (hk : k ≠ key) :
    (preauthWrittenState st key uid csrf).hget k f = st.hget k f := by
  simp [preauthWrittenState, hget_hset_ne_key _ _ _ _ _ _ hk]

theorem authWrittenState_frame (st : RedisState) (key uid : String) (admin : Bool)
    (csrf k f : String) (hk : k ≠ key) :
    (authWrittenState st key uid admin csrf).hget k f = st.hget k f := by
  simp [authWrittenState, hget_hset_ne_key _ _ _ _ _ _ hk]

/-- Core specification of the `BaseSession::create` retry loop: on success the
returned session carries exactly the requested `SessionInfo`, the record
reads back in full under its own kind's namespace, and no other key of the
store is touched. -/
theorem createLoop_spec :
    ∀ (cands : List String) (st : RedisState) (bs : BaseSession) (st' : RedisState)
      (info : SessionInfo),
      BaseSession.createLoop cands info st = some (.ok (bs, st')) →
      bs.session_info = info ∧
      Connection.get_info st' bs.token info.toSessionType = .ok (some info) ∧
      ∀ k f, k ≠ sessionKey info.toSessionType bs.token → st'.hget k f = st.hget k f := by
  intro cands
  induction cands with
  | nil =>
    intro st bs st' info h
    simp [BaseSession.createLoop] at h
  | cons c rest ih =>
    intro st bs st' info h
    by_cases hex : st.existsKey (sessionKey info.toSessionType c) = true
    · rw [BaseSession.createLoop, create_eq_of_exists st c info hex] at h
      exact ih st bs st' info h
    · have hfind : assocFind st.hashes (sessionKey info.toSessionType c) = none := by
        cases hf : assocFind st.hashes (sessionKey info.toSessionType c) with
        | none => rfl
        | some v => exact absurd (by simp [RedisState.existsKey, hf]) hex
      cases info with
      | Registration csrf d =>
        obtain ⟨⟨em, fo, su, ad⟩⟩ := d
        rw [BaseSession.createLoop,
          create_registration_eq st c csrf em fo su ad (by exact hfind)] at h
        simp only [Option.some.injEq, Except.ok.injEq, Prod.mk.injEq] at h
        obtain ⟨hbs, hst⟩ := h
        subst hbs
        subst hst
        refine ⟨rfl, regWrittenState_get st c em fo su ad csrf, ?_⟩
        intro k f hk
        exact regWrittenState_frame st _ em fo su ad csrf k f hk
      | PreAuthentication csrf d =>
        obtain ⟨uid⟩ := d
        rw [BaseSession.createLoop, create_preauth_eq st c csrf uid (by exact hfind)] at h
        simp only [Option.some.injEq, Except.ok.injEq, Prod.mk.injEq] at h
        obtain ⟨hbs, hst⟩ := h
        subst hbs
        subst hst
        refine ⟨rfl, preauthWrittenState_get st c uid csrf, ?_⟩
        intro k f hk
        exact preauthWrittenState_frame st _ uid csrf k f hk
      | Authenticated csrf d =>
        obtain ⟨uid, admin⟩ := d
        rw [BaseSession.createLoop, create_auth_eq st c csrf uid admin (by exact hfind)] at h
        simp only [Option.some.injEq, Except.ok.injEq, Prod.mk.injEq] at h
        obtain ⟨hbs, hst⟩ := h
        subst hbs
        subst hst
        refine ⟨rfl, authWrittenState_get st c uid csrf admin, ?_⟩
        intro k f hk
        exact authWrittenState_frame st _ uid admin csrf k f hk

/-- `get_info` depends only on the fields of its own namespaced key. -/
theorem get_info_congr (st1 st2 : RedisState) (t : String) (ty : SessionType)
    (h : ∀ f, st1.hget (sessionKey ty t) f = st2.hget (sessionKey ty t) f) :
    Connection.get_info st1 t ty = Connection.get_info st2 t ty := by
  cases ty <;>
    simp [Connection.get_info, Connection.get_preauthenticated_session_info,
      Connection.get_authenticated_session_info,
      Connection.get_registration_session_data, h]

theorem afterAttempts_count (n : Nat) :
    (afterAttempts n).count = if n = 0 then none else some n := by
  induction n with
  | zero => rfl
  | succ m ih =>
    have hgd : (afterAttempts m).count.getD 0 = m := by
      rw [ih]
      by_cases h : m = 0 <;> simp [h]
    by_cases h5 : m + 1 < AUTH_TIMEOUT_ATTEMPTS <;>
      simp [afterAttempts, Connection.bruteforce_timeout, hgd, h5]

/-- C4: For the bruteforce guard and a fresh client identifier, attempts 1
through 4 each return allowed (`false`, i.e. not timed out) with the counter
TTL set to the 10-second window, and attempt 5 and every further attempt
while the counter persists return not-allowed (`true`) with the TTL set to
the 60-second penalty period.  The guard takes no credential at all, so the
outcome is independent of credential correctness. -/
theorem c4_bruteforce_threshold (n : Nat) :
    (1 ≤ n → n ≤ 4 → Connection.bruteforce_timeout (afterAttempts (n - 1)) =
      (false, ⟨some n, some AUTH_TIMEOUT_PERIOD⟩)) ∧
    (5 ≤ n → Connection.bruteforce_timeout (afterAttempts (n - 1)) =
      (true, ⟨some n, some AUTH_PENALTY_PERIOD⟩)) := by
  have hgd : (afterAttempts (n - 1)).count.getD 0 = n - 1 := by
    rw [afterAttempts_count]
    by_cases h : n - 1 = 0 <;> simp [h]
  constructor
  · intro h1 h4
    have hn : n - 1 + 1 = n := by omega
    have hlt : n < AUTH_TIMEOUT_ATTEMPTS := by
      simp only [AUTH_TIMEOUT_ATTEMPTS]
      omega
    simp [Connection.bruteforce_timeout, hgd, hn, hlt]
  · intro h5
    have hn : n - 1 + 1 = n := by omega
    have hge : ¬n < AUTH_TIMEOUT_ATTEMPTS := by
      simp only [AUTH_TIMEOUT_ATTEMPTS]
      omega
    simp [Connection.bruteforce_timeout, hgd, hn, hge]

theorem c4_bruteforce_threshold_witness :
    Connection.bruteforce_timeout (afterAttempts 3) =
      (false, ⟨some 4, some AUTH_TIMEOUT_PERIOD⟩) ∧
    Connection.bruteforce_timeout (afterAttempts 4) =
      (true, ⟨some 5, some AUTH_PENALTY_PERIOD⟩) :=
  ⟨(c4_bruteforce_threshold 4).1 (by decide) (by decide),
    (c4_bruteforce_threshold 5).2 (by decide)⟩

/-- C3: the code's `{x:x}` formatting drops leading zeroes, so on the
all-zero byte draw the generated token is 24 characters long, not the 48
the specification promises for every value of the 24 CSPRNG bytes. -/
theorem c3_generate_token_zero_bytes :
    generate_token (List.replicate 24 0) = "000000000000000000000000" ∧
    (generate_token (List.replicate 24 0)).length = 24 := by
  constructor <;> rfl

/-- C5: round trip — for any kind K (carried by the `SessionInfo`) and any
valid payload, a successful `BaseSession::create` followed by
`BaseSession::get` of the created token under the same kind returns a record
whose stored info (and hence payload) is exactly the one supplied. -/
theorem c5_create_get_roundtrip (cands : List String) (st : RedisState)
    (bs : BaseSession) (st' : RedisState) (info : SessionInfo)
    (h : BaseSession.createLoop cands info st = some (.ok (bs, st'))) :
    BaseSession.get bs.token info.toSessionType st' = .ok (some ⟨bs.token, info⟩) := by
  obtain ⟨-, hget, -⟩ := createLoop_spec cands st bs st' info h
  unfold BaseSession.get
  rw [hget]
  rfl

theorem c5_create_get_roundtrip_witness :
    BaseSession.createLoop ["t1"] (.Registration "c" ⟨⟨"a@b.c", "F", "S", "A"⟩⟩)
        RedisState.empty =
      some (.ok (⟨"t1", .Registration "c" ⟨⟨"a@b.c", "F", "S", "A"⟩⟩⟩,
        ⟨[("sessions:registration:t1",
          [("email", "a@b.c"), ("forename", "F"), ("surname", "S"), ("address", "A"),
            ("csrf", "c")])], []⟩)) ∧
    BaseSession.get "t1" SessionType.Registration
        ⟨[("sessions:registration:t1",
          [("email", "a@b.c"), ("forename", "F"), ("surname", "S"), ("address", "A"),
            ("csrf", "c")])], []⟩ =
      .ok (some ⟨"t1", .Registration "c" ⟨⟨"a@b.c", "F", "S", "A"⟩⟩⟩) :=
  ⟨rfl,
    c5_create_get_roundtrip ["t1"] RedisState.empty
      ⟨"t1", .Registration "c" ⟨⟨"a@b.c", "F", "S", "A"⟩⟩⟩ _
      (.Registration "c" ⟨⟨"a@b.c", "F", "S", "A"⟩⟩) rfl⟩

/-- C9: namespace isolation — a successful create under one kind's namespace
leaves `get` under every other kind, for every token, exactly as it was:
the record can never be returned under another kind, because the three kinds'
storage key prefixes are pairwise distinct. -/
theorem c9_namespace_isolation (cands : List String) (st : RedisState)
    (bs : BaseSession) (st' : RedisState) (info : SessionInfo)
    (h : BaseSession.createLoop cands info st = some (.ok (bs, st')))
    (ty : SessionType) (hty : ty ≠ info.toSessionType) (t : String) :
    Connection.get_info st' t ty = Connection.get_info st t ty := by
  obtain ⟨-, -, hframe⟩ := createLoop_spec cands st bs st' info h
  exact get_info_congr st' st t ty fun f =>
    hframe (sessionKey ty t) f (sessionKey_ne ty info.toSessionType t bs.token hty)

theorem c9_namespace_isolation_witness :
    BaseSession.createLoop ["t1"] (.Registration "c" ⟨⟨"a@b.c", "F", "S", "A"⟩⟩)
        RedisState.empty =
      some (.ok (⟨"t1", .Registration "c" ⟨⟨"a@b.c", "F", "S", "A"⟩⟩⟩,
        ⟨[("sessions:registration:t1",
          [("email", "a@b.c"), ("forename", "F"), ("surname", "S"), ("address", "A"),
            ("csrf", "c")])], []⟩)) ∧
    SessionType.PreAuthentication ≠
      (SessionInfo.Registration "c" ⟨⟨"a@b.c", "F", "S", "A"⟩⟩).toSessionType ∧
    Connection.get_info
        ⟨[("sessions:registration:t1",
          [("email", "a@b.c"), ("forename", "F"), ("surname", "S"), ("address", "A"),
            ("csrf", "c")])], []⟩ "t1" .PreAuthentication =
      Connection.get_info RedisState.empty "t1" .PreAuthentication :=
  ⟨rfl, by decide,
    c9_namespace_isolation ["t1"] RedisState.empty
      ⟨"t1", .Registration "c" ⟨⟨"a@b.c", "F", "S", "A"⟩⟩⟩ _
      (.Registration "c" ⟨⟨"a@b.c", "F", "S", "A"⟩⟩) rfl
      .PreAuthentication (by decide) "t1"⟩

theorem promote_extract (oldTok oldCsrf uid csrf : String) (cands : List String)
    (st : RedisState) (cust : CustomerSession) (st1 : RedisState)
    (hp : PreAuthenticationSession.promote ⟨⟨oldTok, .PreAuthentication oldCsrf ⟨uid⟩⟩⟩
      csrf cands st = .ok (some (.ok (cust, st1)))) :
    ∃ bs stc,
      BaseSession.createLoop cands (.Authenticated csrf ⟨uid, false⟩)
        (Connection.delete st oldTok .PreAuthentication) = some (.ok (bs, stc)) ∧
      cust = ⟨bs⟩ ∧
      st1 = Connection.set_expiry stc bs.token SESSION_TIMEOUT .Authenticated := by
  simp only [PreAuthenticationSession.promote, SessionInfo.as_pre_auth] at hp
  cases hcl : BaseSession.createLoop cands (.Authenticated csrf ⟨uid, false⟩)
      (Connection.delete st oldTok .PreAuthentication) with
  | none =>
    rw [hcl] at hp
    simp at hp
  | some r =>
    cases r with
    | error e =>
      rw [hcl] at hp
      simp at hp
    | ok pr =>
      obtain ⟨bs, stc⟩ := pr
      rw [hcl] at hp
      simp only [PanicOr.ok.injEq, Option.some.injEq, Except.ok.injEq,
        Prod.mk.injEq] at hp
      exact ⟨bs, stc, rfl, hp.1.symm, hp.2.symm⟩

theorem promote_to_admin_extract (oldTok oldCsrf uid csrf : String)
    (cands : List String) (st : RedisState) (adm : AdministratorSession)
    (st1 : RedisState)
    (hp : PreAuthenticationSession.promote_to_admin
      ⟨⟨oldTok, .PreAuthentication oldCsrf ⟨uid⟩⟩⟩ csrf cands st =
      .ok (some (.ok (adm, st1)))) :
    ∃ bs stc,
      BaseSession.createLoop cands (.Authenticated csrf ⟨uid, true⟩)
        (Connection.delete st oldTok .PreAuthentication) = some (.ok (bs, stc)) ∧
      adm = ⟨bs⟩ ∧
      st1 = Connection.set_expiry stc bs.token ADMIN_SESSION_TIMEOUT .Authenticated := by
  simp only [PreAuthenticationSession.promote_to_admin, SessionInfo.as_pre_auth] at hp
  cases hcl : BaseSession.createLoop cands (.Authenticated csrf ⟨uid, true⟩)
      (Connection.delete st oldTok .PreAuthentication) with
  | none =>
    rw [hcl] at hp
    simp at hp
  | some r =>
    cases r with
    | error e =>
      rw [hcl] at hp
      simp at hp
    | ok pr =>
      obtain ⟨bs, stc⟩ := pr
      rw [hcl] at hp
      simp only [PanicOr.ok.injEq, Option.some.injEq, Except.ok.injEq,
        Prod.mk.injEq] at hp
      exact ⟨bs, stc, rfl, hp.1.symm, hp.2.symm⟩

/-- After the delete-then-create pair at the heart of promotion, plus the
final TTL application: the old token is gone from the pre-authentication
namespace, and the new token reads back in full under `Authenticated`. -/
theorem promoted_state_gets (oldTok uid csrf : String) (admin : Bool)
    (cands : List String) (st stc : RedisState) (bs : BaseSession) (secs : Nat)
    (hcl : BaseSession.createLoop cands (.Authenticated csrf ⟨uid, admin⟩)
      (Connection.delete st oldTok .PreAuthentication) = some (.ok (bs, stc))) :
    bs.session_info = .Authenticated csrf ⟨uid, admin⟩ ∧
    PreAuthenticationSession.get oldTok
      (Connection.set_expiry stc bs.token secs .Authenticated) = .ok none ∧
    BaseSession.get bs.token .Authenticated
      (Connection.set_expiry stc bs.token secs .Authenticated) =
      .ok (some ⟨bs.token, .Authenticated csrf ⟨uid, admin⟩⟩) := by
  obtain ⟨hinfo, hget, hframe⟩ := createLoop_spec _ _ _ _ _ hcl
  have hexp : ∀ k f,
      (Connection.set_expiry stc bs.token secs .Authenticated).hget k f = stc.hget k f := by
    intro k f
    simp [Connection.set_expiry, hget_expire]
  have hne : sessionKey SessionType.PreAuthentication oldTok ≠
      sessionKey (SessionInfo.Authenticated csrf ⟨uid, admin⟩).toSessionType bs.token :=
    sessionKey_ne _ _ _ _ (by simp [SessionInfo.toSessionType])
  refine ⟨hinfo, ?_, ?_⟩
  · have h1 : ∀ f,
        (Connection.set_expiry stc bs.token secs .Authenticated).hget
          (sessionKey .PreAuthentication oldTok) f = none := by
      intro f
      rw [hexp]
      rw [hframe _ f hne]
      simp [Connection.delete, hget_del_self]
    have h3 : Connection.get_info
        (Connection.set_expiry stc bs.token secs .Authenticated) oldTok
        .PreAuthentication = .ok none := by
      simp [Connection.get_info, Connection.get_preauthenticated_session_info, h1]
    unfold PreAuthenticationSession.get BaseSession.get
    rw [h3]
    rfl
  · have h2 : Connection.get_info
        (Connection.set_expiry stc bs.token secs .Authenticated) bs.token .Authenticated =
        .ok (some (.Authenticated csrf ⟨uid, admin⟩)) := by
      rw [get_info_congr _ stc _ _ fun f => hexp _ f]
      exact hget
    unfold BaseSession.get
    rw [h2]
    rfl

/-- C1: for every pre-authentication session, `promote` (and
`promote_to_admin`) first deletes the pre-authentication record and then
creates a brand-new `Authenticated` record with the freshly generated token
and csrf token, so afterwards the original token resolves to not-found under
`PreAuthentication` and the returned new token resolves successfully under
`Authenticated`, carrying the same `user_id`. -/
theorem c1_promotion_invalidates_source (oldTok oldCsrf uid csrf : String)
    (cands : List String) (st : RedisState) (cust : CustomerSession)
    (st1 : RedisState) (oldTok2 oldCsrf2 uid2 csrf2 : String)
    (cands2 : List String) (st2 : RedisState) (adm : AdministratorSession)
    (st3 : RedisState)
    (hp : PreAuthenticationSession.promote ⟨⟨oldTok, .PreAuthentication oldCsrf ⟨uid⟩⟩⟩
      csrf cands st = .ok (some (.ok (cust, st1))))
    (hq : PreAuthenticationSession.promote_to_admin
      ⟨⟨oldTok2, .PreAuthentication oldCsrf2 ⟨uid2⟩⟩⟩ csrf2 cands2 st2 =
      .ok (some (.ok (adm, st3)))) :
    PreAuthenticationSession.get oldTok st1 = .ok none ∧
    BaseSession.get cust.session.token .Authenticated st1 =
      .ok (some ⟨cust.session.token, .Authenticated csrf ⟨uid, false⟩⟩) ∧
    PreAuthenticationSession.get oldTok2 st3 = .ok none ∧
    BaseSession.get adm.session.token .Authenticated st3 =
      .ok (some ⟨adm.session.token, .Authenticated csrf2 ⟨uid2, true⟩⟩) := by
  obtain ⟨bs, stc, hcl, hcust, hst1⟩ := promote_extract _ _ _ _ _ _ _ _ hp
  obtain ⟨bs2, stc2, hcl2, hadm, hst3⟩ := promote_to_admin_extract _ _ _ _ _ _ _ _ hq
  subst hcust
  subst hst1
  subst hadm
  subst hst3
  obtain ⟨-, hpre1, hbase1⟩ :=
    promoted_state_gets oldTok uid csrf false cands st stc bs SESSION_TIMEOUT hcl
  obtain ⟨-, hpre2, hbase2⟩ :=
    promoted_state_gets oldTok2 uid2 csrf2 true cands2 st2 stc2 bs2
      ADMIN_SESSION_TIMEOUT hcl2
  exact ⟨hpre1, hbase1, hpre2, hbase2⟩

theorem c1_promotion_invalidates_source_witness :
    PreAuthenticationSession.promote ⟨⟨"old1", .PreAuthentication "c0" ⟨"u1"⟩⟩⟩
        "c1" ["new1"] RedisState.empty =
      .ok (some (.ok (⟨⟨"new1", .Authenticated "c1" ⟨"u1", false⟩⟩⟩,
        ⟨[("sessions:authenticated:new1",
          [("user_id", "u1"), ("admin", "0"), ("csrf", "c1")])],
          [("sessions:authenticated:new1", SESSION_TIMEOUT)]⟩))) ∧
    PreAuthenticationSession.promote_to_admin
        ⟨⟨"old2", .PreAuthentication "c9" ⟨"u2"⟩⟩⟩ "c2" ["new2"] RedisState.empty =
      .ok (some (.ok (⟨⟨"new2", .Authenticated "c2" ⟨"u2", true⟩⟩⟩,
        ⟨[("sessions:authenticated:new2",
          [("user_id", "u2"), ("admin", "1"), ("csrf", "c2")])],
          [("sessions:authenticated:new2", ADMIN_SESSION_TIMEOUT)]⟩))) ∧
    (PreAuthenticationSession.get "old1"
        ⟨[("sessions:authenticated:new1",
          [("user_id", "u1"), ("admin", "0"), ("csrf", "c1")])],
          [("sessions:authenticated:new1", SESSION_TIMEOUT)]⟩ = .ok none ∧
      BaseSession.get "new1" .Authenticated
        ⟨[("sessions:authenticated:new1",
          [("user_id", "u1"), ("admin", "0"), ("csrf", "c1")])],
          [("sessions:authenticated:new1", SESSION_TIMEOUT)]⟩ =
        .ok (some ⟨"new1", .Authenticated "c1" ⟨"u1", false⟩⟩) ∧
      PreAuthenticationSession.get "old2"
        ⟨[("sessions:authenticated:new2",
          [("user_id", "u2"), ("admin", "1"), ("csrf", "c2")])],
          [("sessions:authenticated:new2", ADMIN_SESSION_TIMEOUT)]⟩ = .ok none ∧
      BaseSession.get "new2" .Authenticated
        ⟨[("sessions:authenticated:new2",
          [("user_id", "u2"), ("admin", "1"), ("csrf", "c2")])],
          [("sessions:authenticated:new2", ADMIN_SESSION_TIMEOUT)]⟩ =
        .ok (some ⟨"new2", .Authenticated "c2" ⟨"u2", true⟩⟩)) :=
  ⟨rfl, rfl,
    c1_promotion_invalidates_source "old1" "c0" "u1" "c1" ["new1"] RedisState.empty
      ⟨⟨"new1", .Authenticated "c1" ⟨"u1", false⟩⟩⟩ _ "old2" "c9" "u2" "c2" ["new2"]
      RedisState.empty ⟨⟨"new2", .Authenticated "c2" ⟨"u2", true⟩⟩⟩ _ rfl rfl⟩

/-- C2: role separation — a session produced by `promote` (admin = false)
resolves through `GenericAuthenticatedSession::get` to the `Customer`
variant and `AdministratorSession::get` returns `None` for its token, while
a session produced by `promote_to_admin` resolves to the `Administrator`
variant and `CustomerSession::get` returns `None` for its token. -/
theorem c2_role_separation (oldTok oldCsrf uid csrf : String)
    (cands : List String) (st : RedisState) (cust : CustomerSession)
    (st1 : RedisState) (oldTok2 oldCsrf2 uid2 csrf2 : String)
    (cands2 : List String) (st2 : RedisState) (adm : AdministratorSession)
    (st3 : RedisState)
    (hp : PreAuthenticationSession.promote ⟨⟨oldTok, .PreAuthentication oldCsrf ⟨uid⟩⟩⟩
      csrf cands st = .ok (some (.ok (cust, st1))))
    (hq : PreAuthenticationSession.promote_to_admin
      ⟨⟨oldTok2, .PreAuthentication oldCsrf2 ⟨uid2⟩⟩⟩ csrf2 cands2 st2 =
      .ok (some (.ok (adm, st3)))) :
    GenericAuthenticatedSession.get cust.session.token st1 =
      .ok (.ok (some (.Customer cust))) ∧
    AdministratorSession.get cust.session.token st1 = .ok (.ok none) ∧
    GenericAuthenticatedSession.get adm.session.token st3 =
      .ok (.ok (some (.Administrator adm))) ∧
    CustomerSession.get adm.session.token st3 = .ok (.ok none) := by
  obtain ⟨bs, stc, hcl, hcust, hst1⟩ := promote_extract _ _ _ _ _ _ _ _ hp
  obtain ⟨bs2, stc2, hcl2, hadm, hst3⟩ := promote_to_admin_extract _ _ _ _ _ _ _ _ hq
  subst hcust
  subst hst1
  subst hadm
  subst hst3
  obtain ⟨hinfo1, -, hbase1⟩ :=
    promoted_state_gets oldTok uid csrf false cands st stc bs SESSION_TIMEOUT hcl
  obtain ⟨hinfo2, -, hbase2⟩ :=
    promoted_state_gets oldTok2 uid2 csrf2 true cands2 st2 stc2 bs2
      ADMIN_SESSION_TIMEOUT hcl2
  have hbs : (⟨bs.token, SessionInfo.Authenticated csrf ⟨uid, false⟩⟩ : BaseSession) = bs := by
    rw [← hinfo1]
  have hbs2 : (⟨bs2.token, SessionInfo.Authenticated csrf2 ⟨uid2, true⟩⟩ : BaseSession) = bs2 := by
    rw [← hinfo2]
  refine ⟨?_, ?_, ?_, ?_⟩
  · unfold GenericAuthenticatedSession.get
    rw [hbase1]
    simp [SessionInfo.as_auth, hbs]
  · unfold AdministratorSession.get
    rw [hbase1]
    simp [SessionInfo.as_auth]
  · unfold GenericAuthenticatedSession.get
    rw [hbase2]
    simp [SessionInfo.as_auth, hbs2]
  · unfold CustomerSession.get
    rw [hbase2]
    simp [SessionInfo.as_auth]

theorem c2_role_separation_witness :
    PreAuthenticationSession.promote ⟨⟨"old1", .PreAuthentication "c0" ⟨"u1"⟩⟩⟩
        "c1" ["new1"] RedisState.empty =
      .ok (some (.ok (⟨⟨"new1", .Authenticated "c1" ⟨"u1", false⟩⟩⟩,
        ⟨[("sessions:authenticated:new1",
          [("user_id", "u1"), ("admin", "0"), ("csrf", "c1")])],
          [("sessions:authenticated:new1", SESSION_TIMEOUT)]⟩))) ∧
    PreAuthenticationSession.promote_to_admin
        ⟨⟨"old2", .PreAuthentication "c9" ⟨"u2"⟩⟩⟩ "c2" ["new2"] RedisState.empty =
      .ok (some (.ok (⟨⟨"new2", .Authenticated "c2" ⟨"u2", true⟩⟩⟩,
        ⟨[("sessions:authenticated:new2",
          [("user_id", "u2"), ("admin", "1"), ("csrf", "c2")])],
          [("sessions:authenticated:new2", ADMIN_SESSION_TIMEOUT)]⟩))) ∧
    (GenericAuthenticatedSession.get "new1"
        ⟨[("sessions:authenticated:new1",
          [("user_id", "u1"), ("admin", "0"), ("csrf", "c1")])],
          [("sessions:authenticated:new1", SESSION_TIMEOUT)]⟩ =
        .ok (.ok (some (.Customer ⟨⟨"new1", .Authenticated "c1" ⟨"u1", false⟩⟩⟩))) ∧
      AdministratorSession.get "new1"
        ⟨[("sessions:authenticated:new1",
          [("user_id", "u1"), ("admin", "0"), ("csrf", "c1")])],
          [("sessions:authenticated:new1", SESSION_TIMEOUT)]⟩ = .ok (.ok none) ∧
      GenericAuthenticatedSession.get "new2"
        ⟨[("sessions:authenticated:new2",
          [("user_id", "u2"), ("admin", "1"), ("csrf", "c2")])],
          [("sessions:authenticated:new2", ADMIN_SESSION_TIMEOUT)]⟩ =
        .ok (.ok (some (.Administrator ⟨⟨"new2", .Authenticated "c2" ⟨"u2", true⟩⟩⟩))) ∧
      CustomerSession.get "new2"
        ⟨[("sessions:authenticated:new2",
          [("user_id", "u2"), ("admin", "1"), ("csrf", "c2")])],
          [("sessions:authenticated:new2", ADMIN_SESSION_TIMEOUT)]⟩ = .ok (.ok none)) :=
  ⟨rfl, rfl,
    c2_role_separation "old1" "c0" "u1" "c1" ["new1"] RedisState.empty
      ⟨⟨"new1", .Authenticated "c1" ⟨"u1", false⟩⟩⟩ _ "old2" "c9" "u2" "c2" ["new2"]
      RedisState.empty ⟨⟨"new2", .Authenticated "c2" ⟨"u2", true⟩⟩⟩ _ rfl rfl⟩

/-- C6 counterexample: a registration record whose `email` field is present
but whose `forename` field is absent (exactly the shape a crash between the
`hset_nx` and the `hset_multiple` of `store_registration_data` leaves
behind) makes `get` return a storage error — not the not-found the claim
requires for any absent required field. -/
theorem c6_missing_field_counterexample :
    Connection.get_info
      ⟨[("sessions:registration:tok", [("email", "a@b.c")])], []⟩ "tok" .Registration =
      .error (.typeError "forename") := rfl

/-- C6, amended: for the `PreAuthentication` and `Authenticated` kinds, `get`
returns not-found whenever any required field is absent (never a partial
record, never an error from mere absence; for `Authenticated` a present
`admin` field is additionally assumed to decode as a bool — absence is the
concern here).  For `Registration`, only an absent `email` yields not-found
(with `email` present the result is never not-found); if `email` is present
but any of `forename`, `surname`, `address` or `csrf` is absent, `get`
surfaces a storage (decode) error instead. -/
theorem c6_missing_fields_amended (st : RedisState) (tok em : String) :
    ((st.hget (sessionKey .PreAuthentication tok) "user_id" = none ∨
      st.hget (sessionKey .PreAuthentication tok) "csrf" = none) →
      Connection.get_info st tok .PreAuthentication = .ok none) ∧
    ((((st.hget (sessionKey .Authenticated tok) "admin").all fun v =>
        (boolFromRedis v).isSome) = true) →
      (st.hget (sessionKey .Authenticated tok) "user_id" = none ∨
        st.hget (sessionKey .Authenticated tok) "admin" = none ∨
        st.hget (sessionKey .Authenticated tok) "csrf" = none) →
      Connection.get_info st tok .Authenticated = .ok none) ∧
    (st.hget (sessionKey .Registration tok) "email" = none →
      Connection.get_info st tok .Registration = .ok none) ∧
    (st.hget (sessionKey .Registration tok) "email" = some em →
      (st.hget (sessionKey .Registration tok) "forename" = none ∨
        st.hget (sessionKey .Registration tok) "surname" = none ∨
        st.hget (sessionKey .Registration tok) "address" = none ∨
        st.hget (sessionKey .Registration tok) "csrf" = none) →
      ∃ f, Connection.get_info st tok .Registration =
        .error (SessionStorageError.typeError f)) ∧
    (st.hget (sessionKey .Registration tok) "email" = some em →
      Connection.get_info st tok .Registration ≠ .ok none) := by
  refine ⟨?_, ?_, ?_, ?_, ?_⟩
  · intro h
    cases h with
    | inl h =>
      simp [Connection.get_info, Connection.get_preauthenticated_session_info, h]
    | inr h =>
      cases huid : st.hget (sessionKey .PreAuthentication tok) "user_id" <;>
        simp [Connection.get_info, Connection.get_preauthenticated_session_info,
          huid, h]
  · intro hadm h
    cases madmin : st.hget (sessionKey .Authenticated tok) "admin" with
    | none =>
      cases huid : st.hget (sessionKey .Authenticated tok) "user_id" <;>
        simp [Connection.get_info, Connection.get_authenticated_session_info,
          madmin, huid]
    | some raw =>
      rw [madmin] at hadm
      simp only [Option.all_some] at hadm
      obtain ⟨b, hb⟩ := Option.isSome_iff_exists.mp hadm
      rcases h with h | h | h
      · cases hcs : st.hget (sessionKey .Authenticated tok) "csrf" <;>
          simp [Connection.get_info, Connection.get_authenticated_session_info,
            madmin, hb, h]
      · rw [madmin] at h
        exact absurd h (by simp)
      · cases huid : st.hget (sessionKey .Authenticated tok) "user_id" <;>
          simp [Connection.get_info, Connection.get_authenticated_session_info,
            madmin, hb, huid, h]
  · intro h
    simp [Connection.get_info, Connection.get_registration_session_data, h]
  · intro he hd
    cases hf : st.hget (sessionKey .Registration tok) "forename" with
    | none =>
      exact ⟨"forename", by
        simp [Connection.get_info, Connection.get_registration_session_data, he, hf]⟩
    | some fov =>
      cases hs : st.hget (sessionKey .Registration tok) "surname" with
      | none =>
        exact ⟨"surname", by
          simp [Connection.get_info, Connection.get_registration_session_data,
            he, hf, hs]⟩
      | some suv =>
        cases ha : st.hget (sessionKey .Registration tok) "address" with
        | none =>
          exact ⟨"address", by
            simp [Connection.get_info, Connection.get_registration_session_data,
              he, hf, hs, ha]⟩
        | some adv =>
          cases hc : st.hget (sessionKey .Registration tok) "csrf" with
          | none =>
            exact ⟨"csrf", by
              simp [Connection.get_info, Connection.get_registration_session_data,
                he, hf, hs, ha, hc]⟩
          | some cv =>
            rcases hd with h | h | h | h
            · rw [h] at hf
              exact Option.noConfusion hf
            · rw [h] at hs
              exact Option.noConfusion hs
            · rw [h] at ha
              exact Option.noConfusion ha
            · rw [h] at hc
              exact Option.noConfusion hc
  · intro he hcontra
    cases hf : st.hget (sessionKey .Registration tok) "forename" with
    | none =>
      simp [Connection.get_info, Connection.get_registration_session_data,
        he, hf] at hcontra
    | some fov =>
      cases hs : st.hget (sessionKey .Registration tok) "surname" with
      | none =>
        simp [Connection.get_info, Connection.get_registration_session_data,
          he, hf, hs] at hcontra
      | some suv =>
        cases ha : st.hget (sessionKey .Registration tok) "address" with
        | none =>
          simp [Connection.get_info, Connection.get_registration_session_data,
            he, hf, hs, ha] at hcontra
        | some adv =>
          cases hc : st.hget (sessionKey .Registration tok) "csrf" with
          | none =>
            simp [Connection.get_info, Connection.get_registration_session_data,
              he, hf, hs, ha, hc] at hcontra
          | some cv =>
            simp [Connection.get_info, Connection.get_registration_session_data,
              he, hf, hs, ha, hc] at hcontra

theorem c6_missing_fields_amended_witness :
    Connection.get_info ⟨[("sessions:preauthentication:t", [("csrf", "c")])], []⟩
        "t" .PreAuthentication = .ok none ∧
    Connection.get_info ⟨[("sessions:authenticated:t", [("user_id", "u")])], []⟩
        "t" .Authenticated = .ok none ∧
    Connection.get_info RedisState.empty "t" .Registration = .ok none ∧
    (∃ f, Connection.get_info
        ⟨[("sessions:registration:t", [("email", "a@b.c"), ("forename", "F")])], []⟩
        "t" .Registration = .error (SessionStorageError.typeError f)) ∧
    Connection.get_info ⟨[("sessions:registration:t", [("email", "a@b.c")])], []⟩
        "t" .Registration ≠ .ok none :=
  ⟨(c6_missing_fields_amended
      ⟨[("sessions:preauthentication:t", [("csrf", "c")])], []⟩ "t" "").1 (Or.inl rfl),
    (c6_missing_fields_amended
      ⟨[("sessions:authenticated:t", [("user_id", "u")])], []⟩ "t" "").2.1 rfl
      (Or.inr (Or.inl rfl)),
    (c6_missing_fields_amended RedisState.empty "t" "").2.2.1 rfl,
    (c6_missing_fields_amended
      ⟨[("sessions:registration:t", [("email", "a@b.c"), ("forename", "F")])], []⟩
      "t" "a@b.c").2.2.2.1 rfl (Or.inr (Or.inl rfl)),
    (c6_missing_fields_amended
      ⟨[("sessions:registration:t", [("email", "a@b.c")])], []⟩ "t" "a@b.c").2.2.2.2
      rfl⟩

/-- C7: if committing a registration session creates the user row but the
password store fails, the just-created user row is deleted again, the
underlying error is surfaced and the session store is left untouched (the
registration record survives); the registration record is deleted only on
full success. -/
theorem c7_signup_rollback (tok csrf em fo su ad new_id : String) (db : Db)
    (st : RedisState) (hemail : ∀ u ∈ db.users, u.email ≠ em) :
    (∀ r db1 st1,
      signup_add_credential_and_commit ⟨⟨tok, .Registration csrf ⟨⟨em, fo, su, ad⟩⟩⟩⟩
        new_id true db st = .ok (r, db1, st1) →
      r = .error .backend ∧ AppUser.select_by_email db1 em = none ∧ st1 = st) ∧
    (∀ r db1 st1,
      signup_add_credential_and_commit ⟨⟨tok, .Registration csrf ⟨⟨em, fo, su, ad⟩⟩⟩⟩
        new_id false db st = .ok (r, db1, st1) →
      r = .ok () ∧ st1 = Connection.delete st tok .Registration) := by
  constructor
  · intro r db1 st1 h
    simp only [signup_add_credential_and_commit, RegistrationSession.user_data,
      SessionInfo.as_registration, AppUserInsert.store, if_true,
      PanicOr.ok.injEq, Prod.mk.injEq] at h
    obtain ⟨hr, hdb, hst⟩ := h
    refine ⟨hr.symm, ?_, hst.symm⟩
    rw [← hdb]
    simp only [AppUser.delete, AppUser.select_by_email]
    rw [List.find?_eq_none]
    intro u hu
    simp only [List.mem_filter, List.mem_append, List.mem_singleton] at hu
    obtain ⟨hu1 | hu1, hu2⟩ := hu
    · simp [hemail u hu1]
    · subst hu1
      simp at hu2
  · intro r db1 st1 h
    simp only [signup_add_credential_and_commit, RegistrationSession.user_data,
      SessionInfo.as_registration, AppUserInsert.store, Bool.false_eq_true, if_false,
      PanicOr.ok.injEq, Prod.mk.injEq] at h
    obtain ⟨hr, hdb, hst⟩ := h
    exact ⟨hr.symm, hst.symm⟩

theorem c7_signup_rollback_witness :
    ((Except.error DatabaseError.backend : Except DatabaseError Unit) = .error .backend ∧
      AppUser.select_by_email ⟨[], [], []⟩ "a@b.c" = none ∧
      (⟨[("sessions:registration:t",
        [("email", "a@b.c"), ("forename", "F"), ("surname", "S"), ("address", "A"),
          ("csrf", "c")])], []⟩ : RedisState) =
        ⟨[("sessions:registration:t",
          [("email", "a@b.c"), ("forename", "F"), ("surname", "S"), ("address", "A"),
            ("csrf", "c")])], []⟩) ∧
    ((Except.ok () : Except DatabaseError Unit) = .ok () ∧
      Connection.delete
          ⟨[("sessions:registration:t",
            [("email", "a@b.c"), ("forename", "F"), ("surname", "S"), ("address", "A"),
              ("csrf", "c")])], []⟩ "t" .Registration =
        Connection.delete
          ⟨[("sessions:registration:t",
            [("email", "a@b.c"), ("forename", "F"), ("surname", "S"), ("address", "A"),
              ("csrf", "c")])], []⟩ "t" .Registration) :=
  ⟨(c7_signup_rollback "t" "c" "a@b.c" "F" "S" "A" "id1" ⟨[], [], []⟩
      ⟨[("sessions:registration:t",
        [("email", "a@b.c"), ("forename", "F"), ("surname", "S"), ("address", "A"),
          ("csrf", "c")])], []⟩ (by simp)).1
      (.error .backend) ⟨[], [], []⟩ _ rfl,
    (c7_signup_rollback "t" "c" "a@b.c" "F" "S" "A" "id1" ⟨[], [], []⟩
      ⟨[("sessions:registration:t",
        [("email", "a@b.c"), ("forename", "F"), ("surname", "S"), ("address", "A"),
          ("csrf", "c")])], []⟩ (by simp)).2
      (.ok ()) ⟨[⟨"id1", "a@b.c", "F", "S", "A", .Customer⟩], [("id1", "hash")], []⟩ _ rfl⟩

theorem promote_never_panics (tok c uid csrf : String) (cands : List String)
    (st : RedisState) :
    ∃ x, PreAuthenticationSession.promote ⟨⟨tok, .PreAuthentication c ⟨uid⟩⟩⟩
      csrf cands st = .ok x := by
  simp only [PreAuthenticationSession.promote, SessionInfo.as_pre_auth]
  cases BaseSession.createLoop cands (.Authenticated csrf ⟨uid, false⟩)
      (Connection.delete st tok .PreAuthentication) with
  | none => exact ⟨none, rfl⟩
  | some r =>
    cases r with
    | error e => exact ⟨some (.error e), rfl⟩
    | ok pr => exact ⟨_, rfl⟩

theorem promote_to_admin_never_panics (tok c uid csrf : String) (cands : List String)
    (st : RedisState) :
    ∃ x, PreAuthenticationSession.promote_to_admin ⟨⟨tok, .PreAuthentication c ⟨uid⟩⟩⟩
      csrf cands st = .ok x := by
  simp only [PreAuthenticationSession.promote_to_admin, SessionInfo.as_pre_auth]
  cases BaseSession.createLoop cands (.Authenticated csrf ⟨uid, true⟩)
      (Connection.delete st tok .PreAuthentication) with
  | none => exact ⟨none, rfl⟩
  | some r =>
    cases r with
    | error e => exact ⟨some (.error e), rfl⟩
    | ok pr => exact ⟨_, rfl⟩

/-- C8: with the user row present, a failed second-factor credential makes
`authenticate_2fa` return `Failure` with the session store returned exactly
as it was handed in — the pre-authentication record is not deleted, so its
token still resolves and the caller may retry. -/
theorem c8_failed_2fa_keeps_session (tok csrf0 uid code : String) (db : Db)
    (csrf : String) (cands : List String) (st : RedisState) (user : AppUser)
    (hUser : AppUser.select_one db uid = some user)
    (hBad : validate_2fa db uid code = false) :
    authenticate_2fa ⟨⟨tok, .PreAuthentication csrf0 ⟨uid⟩⟩⟩ code db csrf cands st =
      .ok (some (.ok (.Failure, st))) := by
  simp [authenticate_2fa, SessionInfo.as_pre_auth, hUser, hBad]

theorem c8_failed_2fa_keeps_session_witness :
    AppUser.select_one ⟨[⟨"u1", "a@b.c", "F", "S", "A", .Customer⟩], [], []⟩ "u1" =
      some ⟨"u1", "a@b.c", "F", "S", "A", .Customer⟩ ∧
    validate_2fa ⟨[⟨"u1", "a@b.c", "F", "S", "A", .Customer⟩], [], []⟩ "u1" "000000" =
      false ∧
    authenticate_2fa ⟨⟨"t", .PreAuthentication "c0" ⟨"u1"⟩⟩⟩ "000000"
        ⟨[⟨"u1", "a@b.c", "F", "S", "A", .Customer⟩], [], []⟩ "c1" ["n1"]
        ⟨[("sessions:preauthentication:t", [("user_id", "u1"), ("csrf", "c0")])], []⟩ =
      .ok (some (.ok (.Failure,
        ⟨[("sessions:preauthentication:t", [("user_id", "u1"), ("csrf", "c0")])], []⟩))) :=
  ⟨rfl, rfl,
    c8_failed_2fa_keeps_session "t" "c0" "u1" "000000"
      ⟨[⟨"u1", "a@b.c", "F", "S", "A", .Customer⟩], [], []⟩ "c1" ["n1"]
      ⟨[("sessions:preauthentication:t", [("user_id", "u1"), ("csrf", "c0")])], []⟩
      ⟨"u1", "a@b.c", "F", "S", "A", .Customer⟩ rfl rfl⟩

/-- C10: `authenticate_2fa` panics (the `expect` on the user lookup) when the
pre-authentication session's `user_id` no longer matches any user row —
witnessed by a concrete run on an empty user table — and whenever the user
row exists the lookup `expect` does not fire, so that panic cannot occur. -/
theorem c10_missing_user_row_panics (tok csrf0 uid code : String) (db : Db)
    (csrf : String) (cands : List String) (st : RedisState) (user : AppUser)
    (hUser : AppUser.select_one db uid = some user) :
    authenticate_2fa ⟨⟨tok, .PreAuthentication csrf0 ⟨uid⟩⟩⟩ code db csrf cands st ≠
      .panicked "User was deleting while authenticating session. Bailing." ∧
    authenticate_2fa ⟨⟨"t0", .PreAuthentication "c0" ⟨"u0"⟩⟩⟩ "000000" ⟨[], [], []⟩
        "c1" ["n1"] RedisState.empty =
      .panicked "User was deleting while authenticating session. Bailing." := by
  refine ⟨?_, rfl⟩
  simp only [authenticate_2fa, SessionInfo.as_pre_auth, hUser]
  by_cases hv : validate_2fa db uid code = true
  · simp only [hv, if_true]
    cases user.role with
    | Customer =>
      obtain ⟨x, hx⟩ := promote_never_panics tok csrf0 uid csrf cands st
      rw [hx]
      rcases x with _ | e
      · simp
      · rcases e with e | pr
        · simp
        · simp
    | Administrator =>
      obtain ⟨x, hx⟩ := promote_to_admin_never_panics tok csrf0 uid csrf cands st
      rw [hx]
      rcases x with _ | e
      · simp
      · rcases e with e | pr
        · simp
        · simp
  · simp only [Bool.not_eq_true] at hv
    simp [hv]

theorem c10_missing_user_row_panics_witness :
    authenticate_2fa ⟨⟨"t", .PreAuthentication "c0" ⟨"u1"⟩⟩⟩ "000000"
        ⟨[⟨"u1", "a@b.c", "F", "S", "A", .Customer⟩], [], []⟩ "c1" ["n1"]
        RedisState.empty ≠
      .panicked "User was deleting while authenticating session. Bailing." ∧
    authenticate_2fa ⟨⟨"t0", .PreAuthentication "c0" ⟨"u0"⟩⟩⟩ "000000" ⟨[], [], []⟩
        "c1" ["n1"] RedisState.empty =
      .panicked "User was deleting while authenticating session. Bailing." :=
  c10_missing_user_row_panics "t" "c0" "u1" "000000"
    ⟨[⟨"u1", "a@b.c", "F", "S", "A", .Customer⟩], [], []⟩ "c1" ["n1"]
    RedisState.empty ⟨"u1", "a@b.c", "F", "S", "A", .Customer⟩ rfl
